import Mathlib

/-!
Verification development for the medpol-platform crawler scheduling and
pipeline admin surface.  The embedded code is the TypeScript admin client
(`admin_portal/src/services/api.ts`, `admin_portal/src/services/scheduler.ts`,
`admin_portal/src/pages/CrawlerManagement.tsx`) together with its type
declarations (`admin_portal/src/types`).  Backend components that exist only
through their type declarations and HTTP callers in this tree (the run
executor, pipeline orchestrator, retry controller and reset handler) are
modelled from the specification; each such definition is marked
`Modelled from the spec:` in its doc comment.
-/

namespace Medpol

/-- HTTP methods used by the admin client. -/
inductive Method
  | GET
  | POST
  | PATCH
  | DELETE
deriving DecidableEq, Repr

/-- An HTTP request as issued by the admin client: method plus path
(the path includes the query string, mirroring the TS template strings). -/
structure Request where
  method : Method
  path : String
deriving DecidableEq, Repr

/-! ### Request builders, one per function of `services/scheduler.ts`.
Each mirrors the literal path template of the TS source. -/

/-- `fetchCrawlerMeta` of scheduler.ts. -/
def fetchCrawlerMetaReq : Request :=
  ⟨.GET, "/v1/crawlers/meta"⟩

/-- `fetchJobs` of scheduler.ts. -/
def fetchJobsReq : Request :=
  ⟨.GET, "/v1/crawler-jobs"⟩

/-- `createJob` of scheduler.ts. -/
def createJobReq : Request :=
  ⟨.POST, "/v1/crawler-jobs"⟩

/-- `updateJob` of scheduler.ts. -/
def updateJobReq (jobId : String) : Request :=
  ⟨.PATCH, "/v1/crawler-jobs/" ++ jobId⟩

/-- `fetchJobRuns` of scheduler.ts. -/
def fetchJobRunsReq (jobId : String) : Request :=
  ⟨.GET, "/v1/crawler-jobs/" ++ jobId ++ "/runs"⟩

/-- `triggerJob` of scheduler.ts. -/
def triggerJobReq (jobId : String) : Request :=
  ⟨.POST, "/v1/crawler-jobs/" ++ jobId ++ "/run"⟩

/-- `deleteJob` of scheduler.ts. -/
def deleteJobReq (jobId : String) : Request :=
  ⟨.DELETE, "/v1/crawler-jobs/" ++ jobId⟩

/-- `runPipeline` of scheduler.ts. -/
def runPipelineReq : Request :=
  ⟨.POST, "/v1/pipeline/run"⟩

/-- `runPipelineQuick` of scheduler.ts. -/
def runPipelineQuickReq : Request :=
  ⟨.POST, "/v1/pipeline/quick-run"⟩

/-- Optional query parameters accepted by `fetchPipelineRuns` of scheduler.ts. -/
structure PipelineRunsParams where
  limit : Option Nat
  offset : Option Nat
  run_type : Option String
  status : Option String
deriving DecidableEq, Repr

/-- One query pair, written as in `URLSearchParams` for the plain values the
client uses (no characters needing percent-encoding appear in them).
A numeric parameter is included only when present and nonzero and a string
parameter only when present and nonempty, mirroring the JS truthiness test
`if (params?.limit) ...` of the TS source. -/
def natParamParts (key : String) : Option Nat → List String
  | some n => if n = 0 then [] else [key ++ "=" ++ toString n]
  | none => []

/-- String-valued counterpart of `natParamParts` (empty string is falsy). -/
def strParamParts (key : String) : Option String → List String
  | some s => if s = "" then [] else [key ++ "=" ++ s]
  | none => []

/-- The query string built by `fetchPipelineRuns`: keys are inserted in the
order limit, offset, run_type, status and joined with ampersands; a nonempty
query is prefixed with a question mark. -/
def pipelineRunsQuery (p : PipelineRunsParams) : String :=
  let parts :=
    natParamParts "limit" p.limit ++ natParamParts "offset" p.offset ++
      strParamParts "run_type" p.run_type ++ strParamParts "status" p.status
  match parts with
  | [] => ""
  | ps => "?" ++ String.intercalate "&" ps

/-- `fetchPipelineRuns` of scheduler.ts. -/
def fetchPipelineRunsReq (p : PipelineRunsParams) : Request :=
  ⟨.GET, "/v1/pipeline/runs" ++ pipelineRunsQuery p⟩

/-- `fetchPipelineRun` of scheduler.ts. -/
def fetchPipelineRunReq (runId : String) : Request :=
  ⟨.GET, "/v1/pipeline/runs/" ++ runId⟩

/-- `retryPipelineDetail` of scheduler.ts. -/
def retryPipelineDetailReq (detailId : String) : Request :=
  ⟨.POST, "/v1/pipeline/runs/" ++ detailId ++ "/retry"⟩

/-- `fetchPipelineDetailLog` of scheduler.ts (limit defaults to 400). -/
def fetchPipelineDetailLogReq (detailId : String) (limit : Nat) : Request :=
  ⟨.GET, "/v1/pipeline/runs/" ++ detailId ++ "/log?limit=" ++ toString limit⟩

/-- `fetchJobRunLog` of scheduler.ts (limit defaults to 400). -/
def fetchJobRunLogReq (runId : String) (limit : Nat) : Request :=
  ⟨.GET, "/v1/crawler-jobs/runs/" ++ runId ++ "/log?limit=" ++ toString limit⟩

/-- `resetPipelineData` of scheduler.ts. -/
def resetPipelineDataReq : Request :=
  ⟨.POST, "/v1/pipeline/reset"⟩

/-! ### The section-6 interface table, written from the specification's
rows so the client request builders can be compared against it. -/

/-- Spec table row: List crawler metadata, GET /v1/crawlers/meta. -/
def specListCrawlerMeta : Request := ⟨.GET, "/v1/crawlers/meta"⟩

/-- Spec table row: List jobs, GET /v1/crawler-jobs. -/
def specListJobs : Request := ⟨.GET, "/v1/crawler-jobs"⟩

/-- Spec table row: Create job, POST /v1/crawler-jobs. -/
def specCreateJob : Request := ⟨.POST, "/v1/crawler-jobs"⟩

/-- Spec table row: Update job, PATCH /v1/crawler-jobs/:id. -/
def specUpdateJob (id : String) : Request := ⟨.PATCH, "/v1/crawler-jobs/" ++ id⟩

/-- Spec table row: Delete job, DELETE /v1/crawler-jobs/:id. -/
def specDeleteJob (id : String) : Request := ⟨.DELETE, "/v1/crawler-jobs/" ++ id⟩

/-- Spec table row: List job runs, GET /v1/crawler-jobs/:id/runs. -/
def specListJobRuns (id : String) : Request := ⟨.GET, "/v1/crawler-jobs/" ++ id ++ "/runs"⟩

/-- Spec table row: Trigger job now, POST /v1/crawler-jobs/:id/run. -/
def specTriggerJob (id : String) : Request := ⟨.POST, "/v1/crawler-jobs/" ++ id ++ "/run"⟩

/-- Spec table row: Fetch job run log, GET /v1/crawler-jobs/runs/:run_id/log?limit=N. -/
def specJobRunLog (runId : String) (n : Nat) : Request :=
  ⟨.GET, "/v1/crawler-jobs/runs/" ++ runId ++ "/log?limit=" ++ toString n⟩

/-- Spec table row: Run full pipeline, POST /v1/pipeline/run. -/
def specRunPipeline : Request := ⟨.POST, "/v1/pipeline/run"⟩

/-- Spec table row: Run quick sample pipeline, POST /v1/pipeline/quick-run. -/
def specRunPipelineQuick : Request := ⟨.POST, "/v1/pipeline/quick-run"⟩

/-- Spec table row: List pipeline runs, GET /v1/pipeline/runs with query keys
limit, offset, run_type, status in that order (absent parameters omitted). -/
def specListPipelineRuns (p : PipelineRunsParams) : Request :=
  ⟨.GET, "/v1/pipeline/runs" ++ pipelineRunsQuery p⟩

/-- Spec table row: Fetch one pipeline run, GET /v1/pipeline/runs/:id. -/
def specFetchPipelineRun (id : String) : Request := ⟨.GET, "/v1/pipeline/runs/" ++ id⟩

/-- Spec table row: Retry one failed detail, POST /v1/pipeline/runs/:detail_id/retry. -/
def specRetryDetail (detailId : String) : Request :=
  ⟨.POST, "/v1/pipeline/runs/" ++ detailId ++ "/retry"⟩

/-- Spec table row: Fetch detail log, GET /v1/pipeline/runs/:detail_id/log?limit=N. -/
def specDetailLog (detailId : String) (n : Nat) : Request :=
  ⟨.GET, "/v1/pipeline/runs/" ++ detailId ++ "/log?limit=" ++ toString n⟩

/-- Spec table row: Reset all pipeline data, POST /v1/pipeline/reset. -/
def specReset : Request := ⟨.POST, "/v1/pipeline/reset"⟩

/-! ### JSON values and the uniform response envelope. -/

/-- A parsed JSON value, as returned by `response.json()`. -/
inductive Json
  | null
  | bool (b : Bool)
  | num (n : Int)
  | str (s : String)
  | arr (elems : List Json)
  | obj (fields : List (String × Json))

/-- Field access on a JSON object: the value at the first occurrence of the
key, `null` for a missing key or a non-object. -/
def Json.field (j : Json) (key : String) : Json :=
  match j with
  | .obj fs =>
    match fs.lookup key with
    | some v => v
    | none => .null
  | _ => .null

/-- The data member of the uniform code / msg / data envelope. -/
def envData (j : Json) : Json := j.field "data"

/-! ### Result extraction, one function per scheduler.ts operation: what the
TS function returns, as a function of the parsed response body. -/

/-- `fetchCrawlerMeta` returns `resp.data`. -/
def fetchCrawlerMetaExtract (j : Json) : Json := envData j

/-- `fetchJobs` returns `resp.data.items`. -/
def fetchJobsExtract (j : Json) : Json := (envData j).field "items"

/-- `createJob` returns `resp.data`. -/
def createJobExtract (j : Json) : Json := envData j

/-- `updateJob` returns `resp.data`. -/
def updateJobExtract (j : Json) : Json := envData j

/-- `fetchJobRuns` returns `resp.data.items`. -/
def fetchJobRunsExtract (j : Json) : Json := (envData j).field "items"

/-- `triggerJob` returns `resp.data`. -/
def triggerJobExtract (j : Json) : Json := envData j

/-- `deleteJob` discards the response body and returns nothing. -/
def deleteJobExtract (_ : Json) : Json := .null

/-- `runPipeline` returns `resp.data`. -/
def runPipelineExtract (j : Json) : Json := envData j

/-- `runPipelineQuick` returns `resp.data`. -/
def runPipelineQuickExtract (j : Json) : Json := envData j

/-- `fetchPipelineRuns` returns `resp.data`. -/
def fetchPipelineRunsExtract (j : Json) : Json := envData j

/-- `fetchPipelineRun` returns `resp.data`. -/
def fetchPipelineRunExtract (j : Json) : Json := envData j

/-- `retryPipelineDetail` discards the response body and returns nothing. -/
def retryPipelineDetailExtract (_ : Json) : Json := .null

/-- `fetchPipelineDetailLog` returns `resp.data`. -/
def fetchPipelineDetailLogExtract (j : Json) : Json := envData j

/-- `fetchJobRunLog` returns `resp.data`. -/
def fetchJobRunLogExtract (j : Json) : Json := envData j

/-- `resetPipelineData` returns `resp.data`. -/
def resetPipelineDataExtract (j : Json) : Json := envData j

/-! ### The low-level request helper `apiRequest` of `services/api.ts`. -/

/-- An HTTP response as observed by `apiRequest`: the `ok` flag, the numeric
status, and the parsed JSON body. -/
structure HttpResponse where
  ok : Bool
  status : Nat
  body : Json

/-- `apiRequest` of api.ts: throws when `response.ok` is false, otherwise
returns the parsed JSON body unchanged (it never inspects the envelope's
code member). -/
def apiRequest (r : HttpResponse) : Except String Json :=
  if r.ok then .ok r.body
  else .error ("请求失败：" ++ toString r.status)

/-! ### Typed records of `types/scheduler.ts`.
Optional or nullable TS fields become `Option`; `null` and an absent field
are collapsed to `none` (JSON.stringify drops only the latter, but no claim
distinguishes them). -/

/-- `PipelineRunDetail` of types/scheduler.ts. -/
structure PipelineRunDetail where
  id : Option String
  crawler_name : String
  source_id : Option String
  status : String
  result_count : Nat
  duration_ms : Option Nat
  attempt_number : Option Nat
  max_attempts : Option Nat
  error_type : Option String
  error_message : Option String
  log_path : Option String
deriving DecidableEq, Repr

/-- `PipelineRunItem` of types/scheduler.ts. -/
structure PipelineRunItem where
  id : String
  run_type : String
  status : String
  total_crawlers : Nat
  successful_crawlers : Nat
  failed_crawlers : Nat
  total_articles : Nat
  started_at : String
  finished_at : Option String
  error_message : Option String
  details : List PipelineRunDetail
deriving DecidableEq, Repr

/-- `PipelineRunList` of types/scheduler.ts. -/
structure PipelineRunList where
  items : List PipelineRunItem
  total : Nat
deriving DecidableEq, Repr

/-- `ResetResult` of types/scheduler.ts. -/
structure ResetResult where
  truncated_tables : List String
  cleared_dirs : List String
  dedupe_reset : Bool
  redis_cleared : Bool
deriving DecidableEq, Repr

/-- `CrawlerJobRun` of types/scheduler.ts. -/
structure CrawlerJobRun where
  id : String
  status : String
  started_at : String
  finished_at : Option String
  executed_crawler : String
  result_count : Nat
  duration_ms : Option Nat
  retry_attempts : Option Nat
  error_type : Option String
  pipeline_run_id : Option String
  log_path : Option String
  error_message : Option String
deriving DecidableEq, Repr

/-- The job type union of CrawlerManagement.tsx. -/
inductive JobType
  | scheduled
  | one_off
deriving DecidableEq, Repr

/-- `CrawlerJobItem` of types/scheduler.ts; `payload` and `retry_config` are
kept abstract here (opaque JSON in the TS type). -/
structure CrawlerJobItem where
  id : String
  name : String
  crawler_name : String
  source_id : String
  job_type : JobType
  schedule_cron : Option String
  interval_minutes : Option Nat
  payload : Json
  retry_config : Json
  enabled : Bool
  next_run_at : Option String
  last_run_at : Option String
  last_status : Option String

/-! ### The job-creation form of `pages/CrawlerManagement.tsx`. -/

/-- `JobFormState` of CrawlerManagement.tsx.  Numeric inputs are `Option Nat`:
`none` is a field the form never set (TS `undefined`). -/
structure JobFormState where
  name : String
  crawler_name : String
  job_type : JobType
  interval_minutes : Option Nat
  schedule_cron : Option String
  max_pages : Option Nat
  max_items : Option Nat
  timeout : Option Nat
  max_attempts : Option Nat
  request_max_retries : Option Nat
  enabled : Bool
deriving DecidableEq, Repr

/-- `defaultForm` of CrawlerManagement.tsx. -/
def defaultForm : JobFormState :=
  { name := ""
  , crawler_name := ""
  , job_type := .scheduled
  , interval_minutes := some 60
  , schedule_cron := none
  , max_pages := some 1
  , max_items := some 20
  , timeout := some 20
  , max_attempts := some 3
  , request_max_retries := some 3
  , enabled := true }

/-- The `payload.meta` object built by `handleCreateJob`. -/
structure PayloadMeta where
  max_pages : Option Nat
  max_items : Option Nat
  timeout : Option Nat
deriving DecidableEq, Repr

/-- The nested `request` object of the retry configuration built by
`handleCreateJob`. -/
structure RequestRetry where
  max_retries : Option Nat
  timeout : Option Nat
deriving DecidableEq, Repr

/-- The `retry_config` object built by `handleCreateJob`; the backoff constant
1.5 is represented as the rational 3/2. -/
structure RetryConfig where
  max_attempts : Option Nat
  attempt_backoff : ℚ
  request : RequestRetry
deriving DecidableEq, Repr

/-- The job-creation request body sent by `handleCreateJob`. -/
structure CreateJobBody where
  name : String
  crawler_name : String
  job_type : JobType
  schedule_cron : Option String
  interval_minutes : Option Nat
  payload_meta : PayloadMeta
  retry_config : RetryConfig
  enabled : Bool
deriving DecidableEq, Repr

/-- `handleCreateJob` of CrawlerManagement.tsx: the request body it passes to
`createJob`, as a function of the form state.  For a non-scheduled job both
schedule fields are sent as null; for a scheduled job they are passed through
from the form unchanged. -/
def handleCreateJob (form : JobFormState) : CreateJobBody :=
  { name := form.name
  , crawler_name := form.crawler_name
  , job_type := form.job_type
  , schedule_cron := if form.job_type = .scheduled then form.schedule_cron else none
  , interval_minutes := if form.job_type = .scheduled then form.interval_minutes else none
  , payload_meta :=
      { max_pages := form.max_pages, max_items := form.max_items, timeout := form.timeout }
  , retry_config :=
      { max_attempts := form.max_attempts
      , attempt_backoff := 3 / 2
      , request := { max_retries := form.request_max_retries, timeout := form.timeout } }
  , enabled := form.enabled }

/-- Exactly one of the two scheduling fields of a creation request is set. -/
def exactlyOneSchedule (b : CreateJobBody) : Bool :=
  xor b.schedule_cron.isSome b.interval_minutes.isSome

/-! ### The retry polling loop of `handleRetryDetail` in CrawlerManagement.tsx. -/

/-- JS truthiness of a nullable string (null and the empty string are falsy). -/
def jsTruthyStr : Option String → Bool
  | some s => s != ""
  | none => false

/-- The predicate `pollRetryStatus` applies to each listed run:
`r.finished_at && r.details?.some(d => d.crawler_name === crawlerName)`. -/
def retryMatch (crawlerName : String) (r : PipelineRunItem) : Bool :=
  jsTruthyStr r.finished_at && r.details.any (fun d => d.crawler_name == crawlerName)

/-- Add to a JS `Set` of strings, modelled as a duplicate-free list. -/
def jsSetAdd (s : List String) (x : String) : List String :=
  if x ∈ s then s else s ++ [x]

/-- Delete from a JS `Set` of strings. -/
def jsSetDelete (s : List String) (x : String) : List String :=
  s.erase x

/-- Outcome of the polling loop: how many polls were issued, the final
retrying set, and the finished manual-retry run found, if any. -/
structure PollResult where
  polls : Nat
  retrying : List String
  found : Option PipelineRunItem
deriving Repr

/-- The body of `pollRetryStatus`: iterate from poll index `i` with `fuel`
iterations remaining.  Each iteration issues one poll (`responses i`); a
rejected poll is swallowed and iteration continues; a successful poll is
scanned with `find` for a finished run whose details mention the retried
crawler; on a hit the detail id is deleted from the retrying set and the loop
stops; once the budget is exhausted the detail id is deleted as well. -/
def pollFrom (crawlerName detailId : String)
    (responses : Nat → Except String PipelineRunList) :
    Nat → Nat → List String → PollResult
  | _, 0, s => ⟨0, jsSetDelete s detailId, none⟩
  | i, fuel + 1, s =>
    match responses i with
    | .error _ =>
      let r := pollFrom crawlerName detailId responses (i + 1) fuel s
      ⟨r.polls + 1, r.retrying, r.found⟩
    | .ok runs =>
      match runs.items.find? (retryMatch crawlerName) with
      | some run => ⟨1, jsSetDelete s detailId, some run⟩
      | none =>
        let r := pollFrom crawlerName detailId responses (i + 1) fuel s
        ⟨r.polls + 1, r.retrying, r.found⟩

/-- `maxPolls` of `pollRetryStatus`. -/
def maxPolls : Nat := 60

/-- Milliseconds slept before each poll. -/
def pollIntervalMs : Nat := 5000

/-- `pollRetryStatus` of CrawlerManagement.tsx, started on the given
retrying set. -/
def pollRetryStatus (crawlerName detailId : String)
    (responses : Nat → Except String PipelineRunList)
    (retrying : List String) : PollResult :=
  pollFrom crawlerName detailId responses 0 maxPolls retrying

/-- The state effect of `handleRetryDetail` of CrawlerManagement.tsx: the
detail id is first added to the retrying set, then `retryDetail(detailId)`
is awaited with no try/catch around it — when that call rejects
(`apiRequest` throws on any non-ok response), the handler rethrows before
the polling loop is started, leaving the id in the retrying set; when it
resolves, the background polling loop runs to completion. -/
def handleRetryDetail (retryCall : Except String Unit) (crawlerName detailId : String)
    (responses : Nat → Except String PipelineRunList)
    (retrying : List String) : PollResult :=
  match retryCall with
  | .error _ => ⟨0, jsSetAdd retrying detailId, none⟩
  | .ok _ => pollRetryStatus crawlerName detailId responses (jsSetAdd retrying detailId)

/-- The listing request issued by every iteration of the polling loop:
`loadPipelineRuns` with run_type manual_retry and limit 5. -/
def retryPollRequest : Request :=
  fetchPipelineRunsReq ⟨some 5, none, some "manual_retry", none⟩

/-! ### Spec-modelled backend: run executor. -/

/-- Outcome of invoking one crawler unit once. -/
inductive AttemptOutcome
  | success (result_count : Nat)
  | retryable (error_type : String)
  | fatal (error_type : String)
deriving DecidableEq, Repr

/-- The record produced by the run executor for one crawler unit. -/
structure ExecutionResult where
  status : String
  attempts : Nat
  result_count : Nat
  error_type : Option String
deriving DecidableEq, Repr

/-- Modelled from the spec: the backend Run Executor (§4.2) is not under
src/.  Attempt loop from zero-based attempt index `i` with `fuel` attempts
remaining: a success stops with status success; a non-retryable error stops
with status failed; a retryable error retries while attempts remain and
otherwise stops with status failed.  `attempts` counts invocations made. -/
def executeFrom (outcomes : Nat → AttemptOutcome) : Nat → Nat → ExecutionResult
  | i, 0 => ⟨"failed", i, 0, some "unknown"⟩
  | i, fuel + 1 =>
    match outcomes i with
    | .success c => ⟨"success", i + 1, c, none⟩
    | .fatal e => ⟨"failed", i + 1, 0, some e⟩
    | .retryable e =>
      if fuel = 0 then ⟨"failed", i + 1, 0, some e⟩
      else executeFrom outcomes (i + 1) fuel

/-- Modelled from the spec: one crawler-unit execution with at most
`maxAttempts` attempts (§4.2 step 2). -/
def execute (maxAttempts : Nat) (outcomes : Nat → AttemptOutcome) : ExecutionResult :=
  executeFrom outcomes 0 maxAttempts

/-! ### Spec-modelled backend: pipeline finalization (§4.3). -/

/-- A detail counts as succeeded when its status is success. -/
def detailSucceeded (d : PipelineRunDetail) : Bool :=
  d.status == "success"

/-- Modelled from the spec: the terminal-status derivation rule of §3 —
success if all details succeeded, failed if all failed, partial_failure
otherwise (the orchestrator that applies it is not under src/). -/
def deriveStatus (details : List PipelineRunDetail) : String :=
  if details.all detailSucceeded then "success"
  else if details.all (fun d => !detailSucceeded d) then "failed"
  else "partial_failure"

/-- Modelled from the spec: pipeline finalization (§4.3 steps 3 and 4) —
counters are counts over the detail list, total_articles sums the successful
details' result counts, and the terminal status follows the derivation rule.
The orchestrator itself is not under src/. -/
def finalizePipelineRun (id run_type started_at finished_at : String)
    (details : List PipelineRunDetail) : PipelineRunItem :=
  { id := id
  , run_type := run_type
  , status := deriveStatus details
  , total_crawlers := details.length
  , successful_crawlers := (details.filter detailSucceeded).length
  , failed_crawlers := (details.filter (fun d => !detailSucceeded d)).length
  , total_articles := ((details.filter detailSucceeded).map PipelineRunDetail.result_count).sum
  , started_at := started_at
  , finished_at := some finished_at
  , error_message := none
  , details := details }

/-! ### Spec-modelled backend: retry controller (§4.5). -/

/-- The durable store of pipeline runs owned by the Job Store. -/
structure PipelineStore where
  runs : List PipelineRunItem
deriving DecidableEq, Repr

/-- Look up a pipeline run detail by id across all stored runs. -/
def findDetail (store : PipelineStore) (detailId : String) : Option PipelineRunDetail :=
  ((store.runs.map PipelineRunItem.details).flatten).find? (fun d => d.id == some detailId)

/-- The single fresh detail of a manual-retry run: same crawler name and
source as the retried detail, outcome fields from the new execution. -/
def manualRetryDetail (d : PipelineRunDetail) (res : ExecutionResult)
    (newDetailId : String) : PipelineRunDetail :=
  { id := some newDetailId
  , crawler_name := d.crawler_name
  , source_id := d.source_id
  , status := res.status
  , result_count := res.result_count
  , duration_ms := none
  , attempt_number := some res.attempts
  , max_attempts := d.max_attempts
  , error_type := res.error_type
  , error_message := none
  , log_path := none }

/-- Modelled from the spec: the Retry/Recovery Controller (§4.5) is not under
src/.  Retrying a detail looks the detail up by id, fails with
NotRetryableError when it is absent, and otherwise appends a brand-new
pipeline run of run_type manual_retry holding exactly one detail for the same
crawler name; no stored run is modified. -/
def retryDetailServer (store : PipelineStore) (detailId : String)
    (res : ExecutionResult) (newRunId newDetailId started finished : String) :
    Except String PipelineStore :=
  match findDetail store detailId with
  | none => .error "NotRetryableError"
  | some d =>
    .ok ⟨store.runs ++
      [finalizePipelineRun newRunId "manual_retry" started finished
        [manualRetryDetail d res newDetailId]]⟩

/-- Modelled from the spec: the immediate response of the retry endpoint
(§4.5, async-accepted) — it acknowledges the detail id before any execution
happens, so it is independent of the eventual execution result. -/
def retryDetailResponse (store : PipelineStore) (detailId : String) :
    Except String String :=
  match findDetail store detailId with
  | none => .error "NotRetryableError"
  | some _ => .ok detailId

/-! ### Spec-modelled backend: durable pipeline state and the reset handler. -/

/-- The durable state behind the listing endpoints: pipeline runs, job
definitions, job run history, the raw/outbox artifact directories and the
redis cache keys. -/
structure BackendState where
  pipeline_runs : List PipelineRunItem
  crawler_jobs : List CrawlerJobItem
  crawler_job_runs : List CrawlerJobRun
  outbox_files : List String
  raw_files : List String
  redis_keys : List String

/-- The job listing endpoint's collection. -/
def listCrawlerJobs (st : BackendState) : List CrawlerJobItem :=
  st.crawler_jobs

/-- The job-run history listing endpoint's collection. -/
def listJobRuns (st : BackendState) : List CrawlerJobRun :=
  st.crawler_job_runs

/-- The pipeline-run listing endpoint: optional run_type and status filters,
then offset/limit pagination (limit defaults to 20). -/
def listPipelineRuns (st : BackendState) (p : PipelineRunsParams) : PipelineRunList :=
  let byType : List PipelineRunItem :=
    match p.run_type with
    | some t => st.pipeline_runs.filter (fun r => r.run_type == t)
    | none => st.pipeline_runs
  let byStatus : List PipelineRunItem :=
    match p.status with
    | some s => byType.filter (fun r => r.status == s)
    | none => byType
  ⟨(byStatus.drop (p.offset.getD 0)).take (p.limit.getD 20), byStatus.length⟩

/-- Modelled from the spec: the destructive reset handler behind
/v1/pipeline/reset (§4.6) is not under src/.  It truncates every run and job
table, clears the artifact directories and the redis cache, and reports the
truncated tables, the cleared directories, and the redis flag in a
`ResetResult` (the response type declared in types/scheduler.ts). -/
def resetPipeline (_st : BackendState) : BackendState × ResetResult :=
  (⟨[], [], [], [], [], []⟩,
   { truncated_tables :=
       ["pipeline_runs", "pipeline_run_details", "crawler_jobs", "crawler_job_runs"]
   , cleared_dirs := ["data/outbox", "data/raw"]
   , dedupe_reset := true
   , redis_cleared := true })

/-! ### Concrete fixtures used to exercise the theorems on closed inputs. -/

/-- A detail that succeeded on its first attempt. -/
def sampleSuccessDetail : PipelineRunDetail :=
  { id := some "d0"
  , crawler_name := "fda"
  , source_id := some "src0"
  , status := "success"
  , result_count := 5
  , duration_ms := some 800
  , attempt_number := some 1
  , max_attempts := some 3
  , error_type := none
  , error_message := none
  , log_path := some "logs/d0.log" }

/-- A detail that exhausted its attempts with timeouts. -/
def sampleFailedDetail : PipelineRunDetail :=
  { id := some "d1"
  , crawler_name := "nmpa"
  , source_id := some "src1"
  , status := "failed"
  , result_count := 0
  , duration_ms := some 1200
  , attempt_number := some 3
  , max_attempts := some 3
  , error_type := some "timeout"
  , error_message := some "timed out"
  , log_path := some "logs/d1.log" }

/-- A finished quick pipeline run with one success and one failure. -/
def sampleRun : PipelineRunItem :=
  { id := "p1"
  , run_type := "quick"
  , status := "partial_failure"
  , total_crawlers := 2
  , successful_crawlers := 1
  , failed_crawlers := 1
  , total_articles := 5
  , started_at := "2025-01-01T00:00:00Z"
  , finished_at := some "2025-01-01T00:05:00Z"
  , error_message := none
  , details := [sampleSuccessDetail, sampleFailedDetail] }

/-- A store holding the sample run. -/
def sampleStore : PipelineStore := ⟨[sampleRun]⟩

/-- The manual-retry run created by retrying the failed sample detail. -/
def sampleRetryRun : PipelineRunItem :=
  finalizePipelineRun "p2" "manual_retry" "t2" "t3"
    [manualRetryDetail sampleFailedDetail ⟨"success", 1, 4, none⟩ "d2"]

/-- A poll transcript whose first poll is rejected and whose second poll
lists the finished manual-retry run. -/
def sampleResponses : Nat → Except String PipelineRunList :=
  fun i => if i = 0 then .error "network" else .ok ⟨[sampleRetryRun], 1⟩

/-- Every attempt times out. -/
def allTimeouts : Nat → AttemptOutcome :=
  fun _ => .retryable "timeout"

/-- First attempt hits a network error, the second succeeds with 7 items. -/
def succAtSecond : Nat → AttemptOutcome :=
  fun i => if i = 0 then .retryable "network" else .success 7

/-- The scheduled default form, with a name and crawler chosen and a cron
expression typed into the optional cron field while the interval input keeps
its default of 60. -/
def cronAndIntervalForm : JobFormState :=
  { defaultForm with
      name := "job"
      crawler_name := "nmpa"
      schedule_cron := some "*/30 * * * *" }

/-! ## Theorems -/

/-- Splitting a list by a predicate preserves its length. -/
theorem filter_length_split {α : Type} (p : α → Bool) (l : List α) :
    (l.filter p).length + (l.filter (fun a => !p a)).length = l.length := by
  induction l with
  | nil => rfl
  | cons a t ih =>
    by_cases h : p a = true <;>
      simp [List.filter_cons, h, Nat.add_assoc, Nat.add_comm, Nat.add_left_comm, ← ih]

/-- Claim C8: the unmodified creation defaults give a retry configuration
with three attempts and a twenty-second timeout carried both in the payload
meta and in the per-request retry settings. -/
theorem defaultPolicy_three_attempts_twenty_seconds :
    (handleCreateJob defaultForm).retry_config.max_attempts = some 3
    ∧ (handleCreateJob defaultForm).payload_meta.timeout = some 20
    ∧ (handleCreateJob defaultForm).retry_config.request.timeout = some 20 :=
  ⟨rfl, rfl, rfl⟩

/-- Claim C9: `apiRequest` throws exactly when the response is not HTTP-ok,
and for every HTTP-ok response it returns the parsed body unchanged — in
particular an envelope whose code member is nonzero still comes back as a
successful result. -/
theorem apiRequest_throws_iff_not_ok (r : HttpResponse) :
    ((∃ e, apiRequest r = .error e) ↔ r.ok = false)
    ∧ (r.ok = true → apiRequest r = .ok r.body) := by
  unfold apiRequest
  cases hr : r.ok <;> simp

/-- Witness for C9: a 2xx response whose envelope carries code 500 is still
returned unchanged, not raised as an error. -/
theorem apiRequest_throws_iff_not_ok_witness :
    apiRequest ⟨true, 200,
        Json.obj [("code", Json.num 500), ("msg", Json.str "internal"), ("data", Json.null)]⟩
      = .ok (Json.obj [("code", Json.num 500), ("msg", Json.str "internal"), ("data", Json.null)]) :=
  (apiRequest_throws_iff_not_ok
    ⟨true, 200,
      Json.obj [("code", Json.num 500), ("msg", Json.str "internal"), ("data", Json.null)]⟩).2 rfl

/-- Counterexample for C4: the claim says every operation returns the data
member of the envelope, but the job listing returns the items array found
inside the data member, which differs from the data member itself on this
concrete envelope. -/
theorem controlSurface_data_counterexample :
    fetchJobsExtract
        (Json.obj [("code", Json.num 0), ("msg", Json.str "success"),
          ("data", Json.obj [("items", Json.arr [])])])
      ≠ envData
        (Json.obj [("code", Json.num 0), ("msg", Json.str "success"),
          ("data", Json.obj [("items", Json.arr [])])]) := by
  intro h
  exact Json.noConfusion h

/-- Claim C4 (amended): every operation of the admin client issues exactly
the HTTP method and path of the section-6 interface table, and each
operation's result is computed from the envelope's data member alone —
eleven operations return the data member itself, the job and job-run
listings return the items array inside it, and delete-job and retry-detail
discard the response body. -/
theorem controlSurface_methods_paths :
    fetchCrawlerMetaReq = specListCrawlerMeta
    ∧ fetchJobsReq = specListJobs
    ∧ createJobReq = specCreateJob
    ∧ (∀ i, updateJobReq i = specUpdateJob i)
    ∧ (∀ i, deleteJobReq i = specDeleteJob i)
    ∧ (∀ i, fetchJobRunsReq i = specListJobRuns i)
    ∧ (∀ i, triggerJobReq i = specTriggerJob i)
    ∧ (∀ i n, fetchJobRunLogReq i n = specJobRunLog i n)
    ∧ runPipelineReq = specRunPipeline
    ∧ runPipelineQuickReq = specRunPipelineQuick
    ∧ (∀ p, fetchPipelineRunsReq p = specListPipelineRuns p)
    ∧ (∀ i, fetchPipelineRunReq i = specFetchPipelineRun i)
    ∧ (∀ i, retryPipelineDetailReq i = specRetryDetail i)
    ∧ (∀ i n, fetchPipelineDetailLogReq i n = specDetailLog i n)
    ∧ resetPipelineDataReq = specReset
    ∧ (∀ j, fetchCrawlerMetaExtract j = envData j)
    ∧ (∀ j, createJobExtract j = envData j)
    ∧ (∀ j, updateJobExtract j = envData j)
    ∧ (∀ j, triggerJobExtract j = envData j)
    ∧ (∀ j, runPipelineExtract j = envData j)
    ∧ (∀ j, runPipelineQuickExtract j = envData j)
    ∧ (∀ j, fetchPipelineRunsExtract j = envData j)
    ∧ (∀ j, fetchPipelineRunExtract j = envData j)
    ∧ (∀ j, fetchPipelineDetailLogExtract j = envData j)
    ∧ (∀ j, fetchJobRunLogExtract j = envData j)
    ∧ (∀ j, resetPipelineDataExtract j = envData j)
    ∧ (∀ j, fetchJobsExtract j = (envData j).field "items")
    ∧ (∀ j, fetchJobRunsExtract j = (envData j).field "items")
    ∧ (∀ j, deleteJobExtract j = Json.null)
    ∧ (∀ j, retryPipelineDetailExtract j = Json.null) := by
  refine ⟨rfl, rfl, rfl, fun i => rfl, fun i => rfl, fun i => rfl, fun i => rfl,
    fun i n => rfl, rfl, rfl, fun p => rfl, fun i => rfl, fun i => rfl, fun i n => rfl,
    rfl, fun j => rfl, fun j => rfl, fun j => rfl, fun j => rfl, fun j => rfl,
    fun j => rfl, fun j => rfl, fun j => rfl, fun j => rfl, fun j => rfl, fun j => rfl,
    fun j => rfl, fun j => rfl, fun j => rfl, fun j => rfl⟩

/-- Counterexample for C6: with the scheduled default form (whose interval
stays at 60) and a cron expression typed into the optional cron field, the
creation request carries both scheduling fields, so it does not submit
exactly one of the two. -/
theorem scheduledJob_xor_counterexample :
    cronAndIntervalForm.job_type = JobType.scheduled
    ∧ (handleCreateJob cronAndIntervalForm).schedule_cron.isSome = true
    ∧ (handleCreateJob cronAndIntervalForm).interval_minutes.isSome = true
    ∧ exactlyOneSchedule (handleCreateJob cronAndIntervalForm) = false :=
  ⟨rfl, rfl, rfl, rfl⟩

/-- Claim C6 (amended): a scheduled creation request always carries
interval_minutes whenever the form's interval is set (which the defaults
guarantee), and it carries exactly one of the two scheduling fields
precisely when the optional cron field was left unset — the client does not
enforce the exactly-one invariant when both are provided. -/
theorem scheduledJob_schedule_fields (form : JobFormState)
    (hj : form.job_type = JobType.scheduled)
    (hi : form.interval_minutes.isSome = true) :
    (handleCreateJob form).interval_minutes.isSome = true
    ∧ (exactlyOneSchedule (handleCreateJob form) = true ↔ form.schedule_cron = none) := by
  constructor
  · simp [handleCreateJob, hj, hi]
  · cases hc : form.schedule_cron <;>
      simp [exactlyOneSchedule, handleCreateJob, hj, hi, hc]

/-- Witness for C6 (amended): the untouched default form is scheduled with
only the interval set, and its creation request carries exactly one
scheduling field. -/
theorem scheduledJob_schedule_fields_witness :
    (handleCreateJob defaultForm).interval_minutes.isSome = true
    ∧ (exactlyOneSchedule (handleCreateJob defaultForm) = true ↔
        defaultForm.schedule_cron = none) :=
  scheduledJob_schedule_fields defaultForm rfl rfl

/-- Claim C1: a finalized pipeline run has
successful_crawlers + failed_crawlers equal to total_crawlers, and its
status follows the derivation rule over its details: success when all
details succeeded, failed when all failed (and at least one exists),
partial_failure when both kinds occur. -/
theorem pipelineRun_terminal_invariant (id rt t0 t1 : String)
    (details : List PipelineRunDetail) :
    ((finalizePipelineRun id rt t0 t1 details).successful_crawlers
        + (finalizePipelineRun id rt t0 t1 details).failed_crawlers
      = (finalizePipelineRun id rt t0 t1 details).total_crawlers)
    ∧ ((∀ d ∈ details, detailSucceeded d = true) →
        (finalizePipelineRun id rt t0 t1 details).status = "success")
    ∧ ((∃ d ∈ details, detailSucceeded d = false) →
        (∀ d ∈ details, detailSucceeded d = false) →
        (finalizePipelineRun id rt t0 t1 details).status = "failed")
    ∧ ((∃ d ∈ details, detailSucceeded d = true) →
        (∃ d ∈ details, detailSucceeded d = false) →
        (finalizePipelineRun id rt t0 t1 details).status = "partial_failure") := by
  refine ⟨?_, ?_, ?_, ?_⟩
  · simpa [finalizePipelineRun] using filter_length_split detailSucceeded details
  · intro h
    have hall : details.all detailSucceeded = true := List.all_eq_true.mpr h
    simp [finalizePipelineRun, deriveStatus, hall]
  · rintro ⟨d0, hd0, hf⟩ hallf
    have h1 : details.all detailSucceeded = false := by
      rw [Bool.eq_false_iff]
      intro hall
      have hx := List.all_eq_true.mp hall d0 hd0
      rw [hf] at hx
      exact Bool.false_ne_true hx
    have h2 : details.all (fun d => !detailSucceeded d) = true :=
      List.all_eq_true.mpr (fun d hd => by rw [hallf d hd]; rfl)
    simp [finalizePipelineRun, deriveStatus, h1, h2]
  · rintro ⟨ds, hds, hs⟩ ⟨df, hdf, hf⟩
    have h1 : details.all detailSucceeded = false := by
      rw [Bool.eq_false_iff]
      intro hall
      have hx := List.all_eq_true.mp hall df hdf
      rw [hf] at hx
      exact Bool.false_ne_true hx
    have h2 : details.all (fun d => !detailSucceeded d) = false := by
      rw [Bool.eq_false_iff]
      intro hall
      have hx := List.all_eq_true.mp hall ds hds
      rw [hs] at hx
      simp at hx
    simp [finalizePipelineRun, deriveStatus, h1, h2]

/-- Witness for C1: finalizing a run over one succeeded and one failed
detail balances the counters and derives partial_failure. -/
theorem pipelineRun_terminal_invariant_witness :
    ((finalizePipelineRun "p9" "quick" "t0" "t1"
          [sampleSuccessDetail, sampleFailedDetail]).successful_crawlers
        + (finalizePipelineRun "p9" "quick" "t0" "t1"
            [sampleSuccessDetail, sampleFailedDetail]).failed_crawlers
      = (finalizePipelineRun "p9" "quick" "t0" "t1"
          [sampleSuccessDetail, sampleFailedDetail]).total_crawlers)
    ∧ (finalizePipelineRun "p9" "quick" "t0" "t1"
        [sampleSuccessDetail, sampleFailedDetail]).status = "partial_failure" := by
  have h := pipelineRun_terminal_invariant "p9" "quick" "t0" "t1"
    [sampleSuccessDetail, sampleFailedDetail]
  exact ⟨h.1, h.2.2.2 ⟨sampleSuccessDetail, by simp, rfl⟩ ⟨sampleFailedDetail, by simp, rfl⟩⟩

/-- Claim C2: a successful retry of a stored detail leaves every stored run
(and so every stored detail record) unchanged and appends exactly one new
run of run_type manual_retry whose single detail carries the retried
detail's crawler_name. -/
theorem retryDetail_preserves_original (store : PipelineStore) (detailId : String)
    (res : ExecutionResult) (newRunId newDetailId t0 t1 : String) (store' : PipelineStore)
    (h : retryDetailServer store detailId res newRunId newDetailId t0 t1 = .ok store') :
    ∃ d r, findDetail store detailId = some d
      ∧ store'.runs = store.runs ++ [r]
      ∧ r.run_type = "manual_retry"
      ∧ r.details.map PipelineRunDetail.crawler_name = [d.crawler_name] := by
  unfold retryDetailServer at h
  cases hf : findDetail store detailId with
  | none => rw [hf] at h; cases h
  | some d =>
    rw [hf] at h
    obtain rfl : PipelineStore.mk (store.runs ++
        [finalizePipelineRun newRunId "manual_retry" t0 t1
          [manualRetryDetail d res newDetailId]]) = store' := by
      injection h
    exact ⟨d, _, rfl, rfl, rfl, rfl⟩

/-- Witness for C2: retrying the failed sample detail appends one
manual-retry run carrying its crawler name and leaves the store's runs as a
prefix. -/
theorem retryDetail_preserves_original_witness :
    ∃ store', retryDetailServer sampleStore "d1" ⟨"success", 1, 4, none⟩ "p2" "d2" "t2" "t3"
        = .ok store'
      ∧ ∃ d r, findDetail sampleStore "d1" = some d
          ∧ store'.runs = sampleStore.runs ++ [r]
          ∧ r.run_type = "manual_retry"
          ∧ r.details.map PipelineRunDetail.crawler_name = [d.crawler_name] := by
  exact ⟨_, rfl, retryDetail_preserves_original sampleStore "d1" ⟨"success", 1, 4, none⟩
    "p2" "d2" "t2" "t3" _ rfl⟩

/-- Claim C5: the reset operation is issued by the client as POST
/v1/pipeline/reset, its response reports the truncated tables, the cleared
directories and the redis flag, and every listing endpoint evaluated on the
post-reset state returns an empty collection. -/
theorem resetPipeline_destructive (st : BackendState) (p : PipelineRunsParams) :
    resetPipelineDataReq = ⟨Method.POST, "/v1/pipeline/reset"⟩
    ∧ listCrawlerJobs (resetPipeline st).1 = []
    ∧ listJobRuns (resetPipeline st).1 = []
    ∧ (listPipelineRuns (resetPipeline st).1 p).items = []
    ∧ (listPipelineRuns (resetPipeline st).1 p).total = 0
    ∧ (resetPipeline st).2.truncated_tables ≠ []
    ∧ (resetPipeline st).2.cleared_dirs ≠ []
    ∧ (resetPipeline st).2.redis_cleared = true := by
  refine ⟨rfl, rfl, rfl, ?_, ?_, by simp [resetPipeline], by simp [resetPipeline], rfl⟩
  · cases hrt : p.run_type <;> cases hs : p.status <;>
      simp [listPipelineRuns, resetPipeline, hrt, hs]
  · cases hrt : p.run_type <;> cases hs : p.status <;>
      simp [listPipelineRuns, resetPipeline, hrt, hs]

/-- When every attempt from index `i` on fails retryably, the executor uses
its whole budget and reports failure with the budget as attempt count. -/
theorem executeFrom_all_retryable (outcomes : Nat → AttemptOutcome) :
    ∀ n i, 1 ≤ n → (∀ j, j < n → ∃ e, outcomes (i + j) = .retryable e) →
      (executeFrom outcomes i n).status = "failed"
      ∧ (executeFrom outcomes i n).attempts = i + n := by
  intro n
  induction n with
  | zero => intro i h; omega
  | succ m ih =>
    intro i _ hr
    obtain ⟨e, he⟩ := hr 0 (by omega)
    rw [Nat.add_zero] at he
    by_cases hm : m = 0
    · subst hm
      simp [executeFrom, he]
    · have hr' : ∀ j, j < m → ∃ e, outcomes (i + 1 + j) = .retryable e := by
        intro j hj
        have hx := hr (j + 1) (by omega)
        have heq : i + (j + 1) = i + 1 + j := by omega
        rwa [heq] at hx
      obtain ⟨ihs, iha⟩ := ih (i + 1) (by omega) hr'
      refine ⟨?_, ?_⟩
      · simpa [executeFrom, he, hm] using ihs
      · have : (executeFrom outcomes i (m + 1)).attempts
            = (executeFrom outcomes (i + 1) m).attempts := by
          simp [executeFrom, he, hm]
        rw [this, iha]
        omega

/-- When attempts before the k-th fail retryably and the k-th succeeds, the
executor stops there: status success, `k` attempts used, and the result is
pinned without consulting any later attempt. -/
theorem executeFrom_success (outcomes : Nat → AttemptOutcome) :
    ∀ k i fuel c, 1 ≤ k → k ≤ fuel →
      (∀ j, j < k - 1 → ∃ e, outcomes (i + j) = .retryable e) →
      outcomes (i + (k - 1)) = .success c →
      executeFrom outcomes i fuel = ⟨"success", i + k, c, none⟩ := by
  intro k
  induction k with
  | zero => intro i fuel c h; omega
  | succ m ih =>
    intro i fuel c _ hfuel hr hs
    obtain ⟨f, rfl⟩ : ∃ f, fuel = f + 1 := ⟨fuel - 1, by omega⟩
    by_cases hm : m = 0
    · subst hm
      have hs' : outcomes i = AttemptOutcome.success c := by simpa using hs
      have h1 : i + (0 + 1) = i + 1 := by omega
      rw [h1]
      simp [executeFrom, hs']
    · obtain ⟨e, he⟩ := by
        have hx := hr 0 (by omega)
        rwa [Nat.add_zero] at hx
      have hf0 : ¬ f = 0 := by omega
      have ih' := ih (i + 1) f c (by omega) (by omega)
        (fun j hj => by
          have hx := hr (j + 1) (by omega)
          have heq : i + (j + 1) = i + 1 + j := by omega
          rwa [heq] at hx)
        (by
          have heq : i + (m + 1 - 1) = i + 1 + (m - 1) := by omega
          rwa [heq] at hs)
      have hstep : executeFrom outcomes i (f + 1) = executeFrom outcomes (i + 1) f := by
        simp [executeFrom, he, hf0]
      rw [hstep, ih']
      have heq : i + 1 + m = i + (m + 1) := by omega
      rw [heq]

/-- Claim C7: with only retryable errors the executor ends failed after
exactly max_attempts attempts; a success on attempt k below max_attempts
ends success after exactly k attempts, and the outcome is unchanged under
any modification of the attempts after the k-th — no further invocation is
consulted. -/
theorem crawlerUnit_retry_policy (maxAttempts k c : Nat)
    (outcomes outcomes' : Nat → AttemptOutcome) :
    ((1 ≤ maxAttempts →
        (∀ j, j < maxAttempts → ∃ e, outcomes j = .retryable e) →
        (execute maxAttempts outcomes).status = "failed"
        ∧ (execute maxAttempts outcomes).attempts = maxAttempts))
    ∧ (1 ≤ k → k < maxAttempts →
        (∀ j, j < k - 1 → ∃ e, outcomes j = .retryable e) →
        outcomes (k - 1) = .success c →
        (execute maxAttempts outcomes).status = "success"
        ∧ (execute maxAttempts outcomes).attempts = k
        ∧ ((∀ j, j < k → outcomes' j = outcomes j) →
            execute maxAttempts outcomes' = execute maxAttempts outcomes)) := by
  constructor
  · intro h1 hr
    have h := executeFrom_all_retryable outcomes maxAttempts 0 h1 (by simpa using hr)
    exact ⟨by simpa [execute] using h.1, by simpa [execute] using h.2⟩
  · intro hk hkm hr hs
    have hmain := executeFrom_success outcomes k 0 maxAttempts c hk (by omega)
      (by simpa using hr) (by simpa using hs)
    refine ⟨by simp [execute, hmain], by simp [execute, hmain], ?_⟩
    intro hagree
    have hr' : ∀ j, j < k - 1 → ∃ e, outcomes' j = .retryable e := by
      intro j hj
      rw [hagree j (by omega)]
      exact hr j hj
    have hs' : outcomes' (k - 1) = .success c := by
      rw [hagree (k - 1) (by omega)]
      exact hs
    have hmain' := executeFrom_success outcomes' k 0 maxAttempts c hk (by omega)
      (by simpa using hr') (by simpa using hs')
    simp [execute, hmain, hmain']

/-- Witness for C7: three timeouts exhaust a three-attempt budget with
status failed; a success on the second of three attempts stops at two. -/
theorem crawlerUnit_retry_policy_witness :
    ((execute 3 allTimeouts).status = "failed" ∧ (execute 3 allTimeouts).attempts = 3)
    ∧ ((execute 3 succAtSecond).status = "success"
        ∧ (execute 3 succAtSecond).attempts = 2) := by
  constructor
  · exact (crawlerUnit_retry_policy 3 2 7 allTimeouts allTimeouts).1 (by omega)
      (fun j _ => ⟨"timeout", rfl⟩)
  · have h := (crawlerUnit_retry_policy 3 2 7 succAtSecond succAtSecond).2 (by omega)
      (by omega)
      (fun j hj => ⟨"network", by
        have hj0 : j = 0 := by omega
        subst hj0
        rfl⟩)
      rfl
    exact ⟨h.1, h.2.1⟩

/-- The polling loop never issues more polls than its budget and always ends
with the detail id deleted from the retrying set, whatever the transcript. -/
theorem pollFrom_budget_and_erase (cn did : String)
    (responses : Nat → Except String PipelineRunList) :
    ∀ fuel i s, (pollFrom cn did responses i fuel s).polls ≤ fuel
      ∧ (pollFrom cn did responses i fuel s).retrying = jsSetDelete s did := by
  intro fuel
  induction fuel with
  | zero => intro i s; simp [pollFrom]
  | succ f ih =>
    intro i s
    obtain ⟨ihp, ihr⟩ := ih (i + 1) s
    cases hresp : responses i with
    | error e =>
      simp only [pollFrom, hresp]
      exact ⟨by simpa using Nat.add_le_add_right ihp 1, ihr⟩
    | ok runs =>
      cases hfind : runs.items.find? (retryMatch cn) with
      | some run =>
        simp only [pollFrom, hresp, hfind]
        exact ⟨by omega, trivial⟩
      | none =>
        simp only [pollFrom, hresp, hfind]
        exact ⟨by simpa using Nat.add_le_add_right ihp 1, ihr⟩

/-- Whatever run the polling loop reports as found came out of `find` on a
successfully polled listing within the budget. -/
theorem pollFrom_found_characterization (cn did : String)
    (responses : Nat → Except String PipelineRunList) :
    ∀ fuel i s run, (pollFrom cn did responses i fuel s).found = some run →
      ∃ j runs, j < fuel ∧ responses (i + j) = .ok runs
        ∧ runs.items.find? (retryMatch cn) = some run := by
  intro fuel
  induction fuel with
  | zero => intro i s run h; simp [pollFrom] at h
  | succ f ih =>
    intro i s run h
    cases hresp : responses i with
    | error e =>
      simp only [pollFrom, hresp] at h
      obtain ⟨j, runs, hj, hr, hf⟩ := ih (i + 1) s run h
      have heq : i + (j + 1) = i + 1 + j := by omega
      exact ⟨j + 1, runs, by omega, by rw [heq]; exact hr, hf⟩
    | ok runs0 =>
      cases hfind : runs0.items.find? (retryMatch cn) with
      | some run0 =>
        simp only [pollFrom, hresp, hfind, Option.some.injEq] at h
        subst h
        exact ⟨0, runs0, by omega, by simpa using hresp, hfind⟩
      | none =>
        simp only [pollFrom, hresp, hfind] at h
        obtain ⟨j, runs, hj, hr, hf⟩ := ih (i + 1) s run h
        have heq : i + (j + 1) = i + 1 + j := by omega
        exact ⟨j + 1, runs, by omega, by rw [heq]; exact hr, hf⟩

/-- Adding to the JS set preserves duplicate freedom. -/
theorem jsSetAdd_nodup (s : List String) (x : String) (h : s.Nodup) :
    (jsSetAdd s x).Nodup := by
  unfold jsSetAdd
  by_cases hx : x ∈ s
  · simpa [hx]
  · simp only [hx, if_false]
    exact List.nodup_append.mpr
      ⟨h, List.nodup_singleton x, List.disjoint_singleton.mpr hx⟩

/-- Counterexample for C10: when the awaited retry POST rejects (here with
the error `apiRequest` raises on a non-ok response), the polling loop never
starts and the detail id stays in the retrying set — so it is not removed
in every outcome and the detail stays marked as retrying forever. -/
theorem retryPolling_cleanup_counterexample :
    "d1" ∈ (handleRetryDetail (.error "请求失败：500") "nmpa" "d1"
        sampleResponses []).retrying
    ∧ (handleRetryDetail (.error "请求失败：500") "nmpa" "d1"
        sampleResponses []).polls = 0 := by
  constructor
  · simp [handleRetryDetail, jsSetAdd]
  · rfl

/-- Claim C10 (amended): when the awaited retry POST resolves, the polling
loop polls at most 60 times, a rejected poll merely advances the loop (one
poll consumed, same eventual set and found run), and the detail id is
deleted from the retrying set on both exits, so with a duplicate-free set
no such detail stays marked retrying; but when the retry POST itself
rejects — it is not wrapped in try/catch — no poll is issued and the detail
id remains in the retrying set. -/
theorem retryPolling_bounded_and_cleanup (cn did : String)
    (retryCall : Except String Unit)
    (responses : Nat → Except String PipelineRunList) (s : List String) :
    (retryCall = .ok () →
        (handleRetryDetail retryCall cn did responses s).polls ≤ maxPolls
        ∧ (handleRetryDetail retryCall cn did responses s).retrying
            = jsSetDelete (jsSetAdd s did) did
        ∧ (s.Nodup → did ∉ (handleRetryDetail retryCall cn did responses s).retrying))
    ∧ (∀ e, retryCall = .error e →
        (handleRetryDetail retryCall cn did responses s).polls = 0
        ∧ did ∈ (handleRetryDetail retryCall cn did responses s).retrying)
    ∧ (∀ i fuel s₀ e, responses i = .error e →
        pollFrom cn did responses i (fuel + 1) s₀ =
          ⟨(pollFrom cn did responses (i + 1) fuel s₀).polls + 1,
           (pollFrom cn did responses (i + 1) fuel s₀).retrying,
           (pollFrom cn did responses (i + 1) fuel s₀).found⟩) := by
  refine ⟨?_, ?_, ?_⟩
  · rintro rfl
    obtain ⟨hp, hr⟩ :=
      pollFrom_budget_and_erase cn did responses maxPolls 0 (jsSetAdd s did)
    refine ⟨hp, hr, ?_⟩
    intro hnd
    have hd : (handleRetryDetail (.ok ()) cn did responses s).retrying
        = (jsSetAdd s did).erase did := hr
    rw [hd]
    exact (jsSetAdd_nodup s did hnd).not_mem_erase
  · rintro e rfl
    refine ⟨rfl, ?_⟩
    simp [handleRetryDetail, jsSetAdd]
    by_cases hmem : did ∈ s <;> simp [hmem]
  · intro i fuel s₀ e hresp
    simp only [pollFrom, hresp]

/-- Witness for C10 (amended): on the sample transcript a resolving retry
POST keeps the loop within budget and leaves the detail id unmarked, while
a rejecting retry POST issues no poll and leaves the id marked. -/
theorem retryPolling_bounded_and_cleanup_witness :
    (handleRetryDetail (.ok ()) "nmpa" "d1" sampleResponses []).polls ≤ maxPolls
    ∧ "d1" ∉ (handleRetryDetail (.ok ()) "nmpa" "d1" sampleResponses []).retrying
    ∧ (handleRetryDetail (.error "boom") "nmpa" "d1" sampleResponses []).polls = 0
    ∧ "d1" ∈ (handleRetryDetail (.error "boom") "nmpa" "d1" sampleResponses []).retrying := by
  have hok := retryPolling_bounded_and_cleanup "nmpa" "d1" (.ok ()) sampleResponses []
  have herr := retryPolling_bounded_and_cleanup "nmpa" "d1" (.error "boom") sampleResponses []
  exact ⟨(hok.1 rfl).1, (hok.1 rfl).2.2 List.nodup_nil,
    (herr.2.1 "boom" rfl).1, (herr.2.1 "boom" rfl).2⟩

/-- Claim C3: the retry call is a bare POST on the detail's retry path whose
body the client discards (async-accepted; the spec-modelled endpoint
acknowledges the detail id immediately, independently of the eventual
execution), and completion is observed by polling the pipeline-run listing
filtered to run_type manual_retry: any run the loop reports as found came
from such a poll within the budget, is finished, and contains a detail with
the retried crawler_name. -/
theorem retryDetail_async_polling (did cn : String) (store : PipelineStore)
    (retryCall : Except String Unit)
    (responses : Nat → Except String PipelineRunList) (s : List String) :
    retryPipelineDetailReq did = ⟨Method.POST, "/v1/pipeline/runs/" ++ did ++ "/retry"⟩
    ∧ retryPollRequest = ⟨Method.GET, "/v1/pipeline/runs?limit=5&run_type=manual_retry"⟩
    ∧ ((∃ d, findDetail store did = some d) → retryDetailResponse store did = .ok did)
    ∧ (∀ run, (handleRetryDetail retryCall cn did responses s).found = some run →
        jsTruthyStr run.finished_at = true
        ∧ run.details.any (fun d => d.crawler_name == cn) = true
        ∧ ∃ j runs, j < maxPolls ∧ responses j = .ok runs ∧ run ∈ runs.items) := by
  refine ⟨rfl, rfl, ?_, ?_⟩
  · rintro ⟨d, hd⟩
    simp [retryDetailResponse, hd]
  · intro run h
    cases retryCall with
    | error e => simp [handleRetryDetail] at h
    | ok u =>
      obtain ⟨j, runs, hj, hresp, hfind⟩ :=
        pollFrom_found_characterization cn did responses maxPolls 0 (jsSetAdd s did) run h
      have hmatch0 : retryMatch cn run = true := List.find?_some hfind
      have hmatch : (jsTruthyStr run.finished_at
          && run.details.any (fun d => d.crawler_name == cn)) = true := hmatch0
      rw [Bool.and_eq_true] at hmatch
      obtain ⟨h1, h2⟩ := hmatch
      exact ⟨h1, h2, j, runs, hj, by simpa using hresp, List.mem_of_find?_eq_some hfind⟩

/-- Witness for C3: on the sample transcript the retry endpoint accepts the
failed detail's id, and the run the polling loop finds is finished. -/
theorem retryDetail_async_polling_witness :
    retryDetailResponse sampleStore "d1" = .ok "d1"
    ∧ jsTruthyStr sampleRetryRun.finished_at = true := by
  have h := retryDetail_async_polling "d1" "nmpa" sampleStore (.ok ()) sampleResponses []
  exact ⟨h.2.2.1 ⟨sampleFailedDetail, rfl⟩, (h.2.2.2 sampleRetryRun rfl).1⟩

end Medpol
